import Mathlib

/-!
Verification of the BaaS branding service (`app/services/branding_service.py`)
against its natural-language specification.

The Python service is shallowly embedded: pure string helpers become Lean
functions over `List Char`; the request pipeline becomes a function from the
request data plus an explicit environment (the outcome of the file read, the
behaviour of the Docling PDF converter, and the behaviour of the BAML
structured-extraction client) to an `Except` value that mirrors Python's
raised-exception versus returned-value distinction.
-/

/-- Does the list `p` occur as a starting segment of `s`?  Used to model the
occurrence test inside Python's `str.replace`. -/
def charsStart : List Char → List Char → Bool
  | [], _ => true
  | _ :: _, [] => false
  | a :: as, b :: bs => a = b && charsStart as bs

/-- Fuel-indexed worker for `pyReplace`.  Mirrors CPython `str.replace`:
scan left to right; at each position, if `old` (non-empty) matches here, emit
`new` and skip past the match, otherwise emit the current character.  The fuel
starts at the length of the string, which bounds the number of steps since
every step consumes at least one character. -/
def pyReplaceAux : Nat → List Char → List Char → List Char → List Char
  | 0, s, _, _ => s
  | Nat.succ fuel, s, old, new =>
    match s with
    | [] => []
    | c :: rest =>
      if old ≠ [] ∧ charsStart old (c :: rest) then
        new ++ pyReplaceAux fuel ((c :: rest).drop old.length) old new
      else
        c :: pyReplaceAux fuel rest old new

/-- Model of Python `s.replace(old, new)` for non-empty `old` (the service only
ever calls it with `"_interview"`, `"-interview"` and `"_"`). -/
def pyReplace (s old new : List Char) : List Char :=
  pyReplaceAux s.length s old new

/-- Model of CPython `str.title` for ASCII text: every character is mapped
through uppercase (when the previous character was uncased) or lowercase (when
it was cased); for ASCII, "cased" coincides with alphabetic.  `prevCased` is
the cased-ness of the character before the current suffix (`false` at the start
of the string). -/
def pyTitle (prevCased : Bool) : List Char → List Char
  | [] => []
  | c :: rest =>
    (if prevCased then c.toLower else c.toUpper) :: pyTitle c.isAlpha rest

/-- Index of the last occurrence of `ch` in `p`, or `-1` when absent — the
value of CPython `p.rfind(ch)`. -/
def pyRfind (p : List Char) (ch : Char) : Int :=
  (List.range p.length).foldl
    (fun acc i => if p.get? i = some ch then (i : Int) else acc) (-1)

/-- The root part (`os.path.splitext(p)[0]`) of a POSIX path: when the last
dot lies after the last separator and at least one character strictly between
them is not a dot, the string is cut at that last dot; otherwise (no dot, or a
leading-dot file such as `".pdf"`) the string is returned whole.  Transcribed
from `genericpath._splitext`. -/
def splitextRoot (p : List Char) : List Char :=
  let sepIndex := pyRfind p '/'
  let dotIndex := pyRfind p '.'
  if sepIndex < dotIndex then
    let between := (p.drop (sepIndex + 1).toNat).take (dotIndex - (sepIndex + 1)).toNat
    if between.all (fun c => c = '.') then p else p.take dotIndex.toNat
  else p

/-- `BrandingService._extract_brand_name_from_filename`: strip the extension
with `os.path.splitext`, then
`.replace("_interview", "").replace("-interview", "").replace("_", " ").title()`.
Note that Python `str.replace` is case-sensitive. -/
def extract_brand_name_from_filename (filename : String) : String :=
  let base := splitextRoot filename.data
  String.mk (pyTitle false
    (pyReplace
      (pyReplace
        (pyReplace base "_interview".data "".data)
        "-interview".data "".data)
      "_".data " ".data))

/-- Fuel-indexed worker removing every occurrence of `old` from `s`, matching
case-insensitively (both sides lowered before comparison).  This is the
removal operation that claim C2 and §4 step 3 of the spec describe
("remove the case-insensitive substrings"). -/
def ciRemoveAux : Nat → List Char → List Char → List Char
  | 0, s, _ => s
  | Nat.succ fuel, s, old =>
    match s with
    | [] => []
    | c :: rest =>
      if old ≠ [] ∧ charsStart (old.map Char.toLower) ((c :: rest).map Char.toLower) then
        ciRemoveAux fuel ((c :: rest).drop old.length) old
      else
        c :: ciRemoveAux fuel rest old

/-- Case-insensitive removal of all occurrences of `old` from `s`. -/
def ciRemove (s old : List Char) : List Char :=
  ciRemoveAux s.length s old

/-- Brand-name derivation as claim C2 states it: strip the extension, remove
`"_interview"` and `"-interview"` case-insensitively, replace underscores with
spaces, title-case.  To be compared with `extract_brand_name_from_filename`,
which embeds the source. -/
def brandNameClaimC2 (filename : String) : String :=
  let base := splitextRoot filename.data
  String.mk (pyTitle false
    (pyReplace (ciRemove (ciRemove base "_interview".data) "-interview".data)
      "_".data " ".data))

/-- Brand-name derivation as amended for C2 (removal is case-sensitive), with
the underscore-to-space step written as the spec phrases it: replace every
underscore character by a space. -/
def brandNameAmendedC2 (filename : String) : String :=
  let base := splitextRoot filename.data
  String.mk (pyTitle false
    ((pyReplace (pyReplace base "_interview".data "".data) "-interview".data "".data).map
      (fun c => if c = '_' then ' ' else c)))

/-! ## Exceptions and request data -/

/-- The exceptions that can flow through the service, as the pipeline
classifies them: FastAPI `HTTPException` (status code and detail string),
`UnicodeDecodeError`, and every other `Exception` (carrying its message). -/
inductive PyExc where
  | httpExc (status : Nat) (detail : String)
  | unicodeDecodeError
  | otherExc (msg : String)
deriving DecidableEq, Repr

deriving instance DecidableEq for Except

/-- The fields of a FastAPI `UploadFile` the service reads: `filename` and
`content_type`, both optional. -/
structure UploadFileM where
  filename : Option String
  content_type : Option String
deriving DecidableEq, Repr

/-- Python truthiness test `not x` for an optional string: true when the value
is `None` or the empty string. -/
def pyFalsyStr : Option String → Bool
  | none => true
  | some s => s = ""

/-- The Why/How/What triple (`GoldenCircle` Pydantic model; also the
`golden_circle` sub-dict built by the service). -/
structure GoldenCircle where
  why : String
  how : String
  what : String
deriving DecidableEq, Repr

/-- The dict shape `{"brand_name": ..., "golden_circle": {...}}` returned by
`create_golden_circle_from_interview`, and equally the `GoldenCircleResponse`
Pydantic model it validates into. -/
structure GoldenCircleDict where
  brand_name : String
  golden_circle : GoldenCircle
deriving DecidableEq, Repr

/-- Raw bytes of the uploaded file.  The pipeline never inspects them; they
are only handed to the Docling converter. -/
abbrev ByteSeq := List Nat

/-- Modelled from the spec: the BAML structured-extraction client
(`app.models.BAML.baml_client`, generated code that is not among the
repository sources) is, per §4.4, a call from the extracted markdown to a
structured Why/How/What object that "may fail for any reason"; the service
takes its `model_dump()` and validates it against the `GoldenCircleResponse`
schema, so a successful call is modelled as yielding that shape
(`{brand_name, golden_circle: {why, how, what}}`), and a failed call as an
arbitrary exception. -/
abbrev BamlClient := String → Except PyExc GoldenCircleDict

/-- The brand name carried by a successful pipeline result (`none` when the
call raised). -/
def resultBrandName : Except PyExc GoldenCircleDict → Option String
  | .ok gc => some gc.brand_name
  | .error _ => none

/-- The pipeline result is a returned value (no exception propagated) whose
three Golden Circle fields are all non-empty. -/
def okNonemptyCircle : Except PyExc GoldenCircleDict → Prop
  | .ok gc =>
      gc.golden_circle.why ≠ "" ∧ gc.golden_circle.how ≠ "" ∧ gc.golden_circle.what ≠ ""
  | .error _ => False

/-! ## The service methods -/

/-- `BrandingService._process_interview_for_golden_circle` (the heuristic
fallback): a dict with the given brand name and three template sentences, two
of which interpolate the brand name; the `content` argument is never used in
the output. -/
def process_interview_for_golden_circle (content : String) (brand_name : String) :
    GoldenCircleDict :=
  let _ := content
  { brand_name := brand_name
    golden_circle :=
      { why := "We believe that businesses like " ++ brand_name ++
          " should create meaningful impact by solving real problems and empowering their customers to achieve their goals."
        how := "Our approach focuses on innovative solutions and a clear process: we listen, iterate, and deliver with high quality standards and reliable service. This method builds genuine relationships with customers through transparency."
        what := brand_name ++
          " provides professional services and solutions that help clients streamline their operations and grow their business effectively." } }

/-- `BrandingService._extract_text_from_pdf_bytes`, as a function of the
Docling conversion outcome on the given bytes: a successful conversion is
returned; a raised `HTTPException` is re-raised; any other exception is
converted to `HTTPException(400, "Failed to extract text from PDF. ...")`. -/
def extract_text_from_pdf_bytes (doclingOutcome : Except PyExc String) :
    Except PyExc String :=
  match doclingOutcome with
  | .ok text => .ok text
  | .error (.httpExc s d) => .error (.httpExc s d)
  | .error _ =>
      .error (.httpExc 400 "Failed to extract text from PDF. Ensure the PDF is readable.")

/-- The `try:` body of `create_golden_circle_from_interview`.  Inputs beyond
the request data describe the environment: `readResult` is the outcome of
`await interview_file.read()` (and `seek`), `docling` the behaviour of the
Docling converter on the bytes, and `baml` the behaviour of the BAML
structured-extraction call on the extracted markdown.  The inner `try/except`
around the BAML call catches every exception and falls back to the heuristic
generator with brand name `brand_name or _extract_brand_name_from_filename(filename)`. -/
def golden_circle_body (file : UploadFileM) (brand_name : Option String)
    (readResult : Except PyExc ByteSeq)
    (docling : ByteSeq → Except PyExc String)
    (baml : BamlClient) :
    Except PyExc GoldenCircleDict :=
  if pyFalsyStr file.filename then
    .error (.httpExc 400 "No file provided")
  else if file.content_type ≠ some "application/pdf" then
    .error (.httpExc 400 "Unsupported file type. Allowed types: ['application/pdf']")
  else
    match readResult with
    | .error e => .error e
    | .ok pdf_bytes =>
      match extract_text_from_pdf_bytes (docling pdf_bytes) with
      | .error e => .error e
      | .ok extracted_text =>
        match baml extracted_text with
        | .ok resp =>
          match brand_name with
          | some s => if s = "" then .ok resp else .ok { resp with brand_name := s }
          | none => .ok resp
        | .error _ =>
          let resolvedName :=
            match brand_name with
            | some s =>
                if s = "" then extract_brand_name_from_filename (file.filename.getD "")
                else s
            | none => extract_brand_name_from_filename (file.filename.getD "")
          .ok (process_interview_for_golden_circle extracted_text resolvedName)

/-- The `except` clauses of `create_golden_circle_from_interview`:
`HTTPException` re-raised, `UnicodeDecodeError` mapped to a 400 encoding
error, any other exception mapped to a generic 500. -/
def golden_circle_handlers (r : Except PyExc GoldenCircleDict) :
    Except PyExc GoldenCircleDict :=
  match r with
  | .ok v => .ok v
  | .error (.httpExc s d) => .error (.httpExc s d)
  | .error .unicodeDecodeError =>
      .error (.httpExc 400 "File encoding not supported. Please use UTF-8.")
  | .error (.otherExc _) =>
      .error (.httpExc 500 "Internal server error processing file")

/-- `BrandingService.create_golden_circle_from_interview`: the validated
pipeline under its exception handlers. -/
def create_golden_circle_from_interview (file : UploadFileM)
    (brand_name : Option String) (readResult : Except PyExc ByteSeq)
    (docling : ByteSeq → Except PyExc String)
    (baml : BamlClient) :
    Except PyExc GoldenCircleDict :=
  golden_circle_handlers (golden_circle_body file brand_name readResult docling baml)

/-- `BrandingService.create_golden_circle_response`: run the pipeline and
validate the resulting dict into the `GoldenCircleResponse` Pydantic model
(in the embedding the dict already carries the model's shape, so validation
is the identity); re-raise `HTTPException`, convert any other exception to a
generic 500. -/
def create_golden_circle_response (file : UploadFileM)
    (brand_name : Option String) (readResult : Except PyExc ByteSeq)
    (docling : ByteSeq → Except PyExc String)
    (baml : BamlClient) :
    Except PyExc GoldenCircleDict :=
  match create_golden_circle_from_interview file brand_name readResult docling baml with
  | .ok d => .ok d
  | .error (.httpExc s det) => .error (.httpExc s det)
  | .error _ =>
      .error (.httpExc 500 "An unexpected error occurred while processing the Golden Circle request")

/-- `BrandingService.get_health_status`: a constant dict, modelled as an
association list of its key/value pairs. -/
def get_health_status : List (String × String) :=
  [("status", "healthy"), ("service", "branding")]

/-- One entry of the `supported_formats` list returned by
`get_supported_file_formats`. -/
structure FormatEntry where
  extension : String
  mime_type : String
  description : String
deriving DecidableEq, Repr

/-- The dict returned by `BrandingService.get_supported_file_formats`. -/
structure SupportedFormats where
  supported_formats : List FormatEntry
  max_file_size : String
  encoding : String
deriving DecidableEq, Repr

/-- `BrandingService.get_supported_file_formats`: a constant dict. -/
def get_supported_file_formats : SupportedFormats :=
  { supported_formats :=
      [{ extension := ".pdf", mime_type := "application/pdf",
         description := "PDF documents" }]
    max_file_size := "10MB"
    encoding := "UTF-8" }



/-! ## Sanity checks on concrete inputs -/

example : extract_brand_name_from_filename "brand_interview.txt" = "Brand" := by decide
example : extract_brand_name_from_filename "my-company-interview.pdf" = "My-Company" := by decide
example : extract_brand_name_from_filename "awesome_brand_interview.md" = "Awesome Brand" := by decide
example : extract_brand_name_from_filename "company_name_interview_final.pdf" = "Company Name Final" := by decide
example : extract_brand_name_from_filename "simple.txt" = "Simple" := by decide
example : extract_brand_name_from_filename "_interview.pdf" = "" := by decide
example : brandNameClaimC2 "brand_interview.txt" = "Brand" := by decide
example :
    resultBrandName
      (create_golden_circle_from_interview
        ⟨some "t_interview.pdf", some "application/pdf"⟩ none (.ok [1])
        (fun _ => .ok "hello") (fun _ => .error (.otherExc "down"))) = some "T" := by decide

/-! ## Helper lemmas -/

/-- A string append whose right operand is non-empty is non-empty. -/
theorem string_append_ne_empty_right (a b : String) (hb : b ≠ "") : a ++ b ≠ "" := by
  intro h
  apply hb
  cases a with
  | mk l1 =>
    cases b with
    | mk l2 =>
      have hd : l1 ++ l2 = ([] : List Char) := congrArg String.data h
      have : l2 = [] := (List.append_eq_nil.mp hd).2
      simp [this]

/-- Replacing the single character `'_'` by `' '` with the Python-`replace`
model is the same as mapping the substitution over the characters. -/
theorem pyReplaceAux_underscore (fuel : Nat) :
    ∀ s : List Char, s.length ≤ fuel →
      pyReplaceAux fuel s ['_'] [' '] =
        s.map (fun c => if c = '_' then ' ' else c) := by
  induction fuel with
  | zero =>
    intro s hs
    have : s = [] := List.length_eq_zero.mp (Nat.le_zero.mp hs)
    simp [this, pyReplaceAux]
  | succ fuel ih =>
    intro s hs
    cases s with
    | nil => simp [pyReplaceAux]
    | cons c rest =>
      by_cases hc : c = '_'
      · subst hc
        have hcond : (['_'] ≠ ([] : List Char)) ∧ charsStart ['_'] ('_' :: rest) = true := by
          exact ⟨by simp, by simp [charsStart]⟩
        simp only [pyReplaceAux]
        rw [if_pos hcond]
        show [' '] ++ pyReplaceAux fuel rest ['_'] [' '] = _
        rw [ih rest (Nat.le_of_succ_le_succ hs)]
        simp
      · have hcond : ¬((['_'] ≠ ([] : List Char)) ∧ charsStart ['_'] (c :: rest) = true) := by
          intro hand
          have hcs := hand.2
          simp [charsStart] at hcs
          exact hc hcs.symm
        simp only [pyReplaceAux]
        rw [if_neg hcond]
        rw [ih rest (Nat.le_of_succ_le_succ hs)]
        simp [hc]

/-- Replacing the single underscore character via the Python-`replace` model
equals a character-wise substitution. -/
theorem pyReplace_underscore (l : List Char) :
    pyReplace l ['_'] [' '] = l.map (fun c => if c = '_' then ' ' else c) :=
  pyReplaceAux_underscore l.length l (Nat.le_refl _)

/-! ## Claim theorems -/

/-- C2 (counterexample): the claim says the interview markers are removed
case-insensitively, but `str.replace` in the source is case-sensitive: on
`"brand_Interview.txt"` the code leaves the marker in place and yields
`"Brand Interview"`, while the claimed algorithm yields `"Brand"`. -/
theorem C2_counterexample :
    extract_brand_name_from_filename "brand_Interview.txt" = "Brand Interview" ∧
    brandNameClaimC2 "brand_Interview.txt" = "Brand" ∧
    ("Brand Interview" : String) ≠ "Brand" := by decide

/-- C2 (amended): for every filename the derived brand name equals the result
of stripping the extension, removing the substrings `"_interview"` and
`"-interview"` case-sensitively (exact lowercase matches only), replacing
underscores with spaces and title-casing; in particular the four examples of
the claim hold. -/
theorem C2_brand_name_derivation :
    (∀ filename : String,
      extract_brand_name_from_filename filename = brandNameAmendedC2 filename) ∧
    extract_brand_name_from_filename "brand_interview.txt" = "Brand" ∧
    extract_brand_name_from_filename "my-company-interview.pdf" = "My-Company" ∧
    extract_brand_name_from_filename "awesome_brand_interview.md" = "Awesome Brand" ∧
    extract_brand_name_from_filename "company_name_interview_final.pdf" = "Company Name Final" := by
  refine ⟨?_, by decide, by decide, by decide, by decide⟩
  intro filename
  simp only [extract_brand_name_from_filename, brandNameAmendedC2, pyReplace_underscore]

/-- C7: the heuristic fallback ignores the extracted text — for one brand
name and any two texts it returns the same Golden Circle, each field a fixed
template parameterised only by the brand name, and all three fields are
non-empty (so it in particular never fails for a non-empty brand name). -/
theorem C7_fallback_ignores_text (bn t1 t2 : String) :
    process_interview_for_golden_circle t1 bn = process_interview_for_golden_circle t2 bn ∧
    (process_interview_for_golden_circle t1 bn).brand_name = bn ∧
    (process_interview_for_golden_circle t1 bn).golden_circle.why =
      "We believe that businesses like " ++ bn ++
        " should create meaningful impact by solving real problems and empowering their customers to achieve their goals." ∧
    (process_interview_for_golden_circle t1 bn).golden_circle.how =
      "Our approach focuses on innovative solutions and a clear process: we listen, iterate, and deliver with high quality standards and reliable service. This method builds genuine relationships with customers through transparency." ∧
    (process_interview_for_golden_circle t1 bn).golden_circle.what =
      bn ++
        " provides professional services and solutions that help clients streamline their operations and grow their business effectively." ∧
    (process_interview_for_golden_circle t1 bn).golden_circle.why ≠ "" ∧
    (process_interview_for_golden_circle t1 bn).golden_circle.how ≠ "" ∧
    (process_interview_for_golden_circle t1 bn).golden_circle.what ≠ "" := by
  refine ⟨rfl, rfl, rfl, rfl, rfl, ?_, ?_, ?_⟩
  · show "We believe that businesses like " ++ bn ++
      " should create meaningful impact by solving real problems and empowering their customers to achieve their goals." ≠ ""
    exact string_append_ne_empty_right _ _ (by decide)
  · show ("Our approach focuses on innovative solutions and a clear process: we listen, iterate, and deliver with high quality standards and reliable service. This method builds genuine relationships with customers through transparency." : String) ≠ ""
    decide
  · show bn ++
      " provides professional services and solutions that help clients streamline their operations and grow their business effectively." ≠ ""
    exact string_append_ne_empty_right _ _ (by decide)

/-- C9: the health accessor and the supported-formats accessor return exactly
the constant dicts given in the spec; they take no input and read no state, so
the values are independent of any input or prior calls. -/
theorem C9_constant_accessors :
    get_health_status = [("status", "healthy"), ("service", "branding")] ∧
    get_supported_file_formats =
      { supported_formats :=
          [{ extension := ".pdf", mime_type := "application/pdf",
             description := "PDF documents" }],
        max_file_size := "10MB", encoding := "UTF-8" } :=
  ⟨rfl, rfl⟩

/-- C3: a missing filename fails with the 400 "No file provided" client
error, and a declared media type other than `application/pdf` fails with the
400 "Unsupported file type..." client error; in both cases the result is the
same for every read outcome, Docling behaviour and BAML behaviour — the bytes
are never read and the extractor is never invoked. -/
theorem C3_validation_short_circuits
    (file : UploadFileM) (bn : Option String)
    (r1 r2 : Except PyExc ByteSeq) (d1 d2 : ByteSeq → Except PyExc String)
    (b1 b2 : BamlClient) :
    (pyFalsyStr file.filename = true →
      create_golden_circle_from_interview file bn r1 d1 b1 =
          .error (.httpExc 400 "No file provided") ∧
        create_golden_circle_from_interview file bn r1 d1 b1 =
          create_golden_circle_from_interview file bn r2 d2 b2) ∧
    (pyFalsyStr file.filename = false →
      file.content_type ≠ some "application/pdf" →
      create_golden_circle_from_interview file bn r1 d1 b1 =
          .error (.httpExc 400 "Unsupported file type. Allowed types: ['application/pdf']") ∧
        create_golden_circle_from_interview file bn r1 d1 b1 =
          create_golden_circle_from_interview file bn r2 d2 b2) := by
  constructor
  · intro hf
    unfold create_golden_circle_from_interview golden_circle_body
    simp [hf, golden_circle_handlers]
  · intro hf hct
    unfold create_golden_circle_from_interview golden_circle_body
    simp [hf, hct, golden_circle_handlers]

/-- Witness for C3 at two concrete requests: a request with no filename, and
a JPEG upload. -/
theorem C3_witness :
    create_golden_circle_from_interview ⟨none, some "application/pdf"⟩ none (.ok [7])
        (fun _ => .ok "text") (fun _ => .error (.otherExc "down")) =
      .error (.httpExc 400 "No file provided") ∧
    create_golden_circle_from_interview ⟨some "photo.jpg", some "image/jpeg"⟩ none (.ok [7])
        (fun _ => .ok "text") (fun _ => .error (.otherExc "down")) =
      .error (.httpExc 400 "Unsupported file type. Allowed types: ['application/pdf']") :=
  ⟨((C3_validation_short_circuits ⟨none, some "application/pdf"⟩ none (.ok [7]) (.ok [7])
      (fun _ => .ok "text") (fun _ => .ok "text")
      (fun _ => .error (.otherExc "down")) (fun _ => .error (.otherExc "down"))).1
        (by decide)).1,
   ((C3_validation_short_circuits ⟨some "photo.jpg", some "image/jpeg"⟩ none (.ok [7]) (.ok [7])
      (fun _ => .ok "text") (fun _ => .ok "text")
      (fun _ => .error (.otherExc "down")) (fun _ => .error (.otherExc "down"))).2
        (by decide) (by decide)).1⟩

/-- C4: when the upload passes validation and the Docling conversion raises
any (non-HTTP) exception, the pipeline raises the 400 client error
"Failed to extract text from PDF. Ensure the PDF is readable.", and the
response-level wrapper re-raises it unchanged instead of converting it to a
server fault. -/
theorem C4_extraction_failure_client_error
    (file : UploadFileM) (bn : Option String) (bs : ByteSeq) (e : PyExc)
    (readResult : Except PyExc ByteSeq) (docling : ByteSeq → Except PyExc String)
    (baml : BamlClient)
    (hname : pyFalsyStr file.filename = false)
    (hct : file.content_type = some "application/pdf")
    (hread : readResult = .ok bs)
    (hdoc : docling bs = .error e)
    (hnothttp : ∀ s d, e ≠ PyExc.httpExc s d) :
    create_golden_circle_from_interview file bn readResult docling baml =
        .error (.httpExc 400 "Failed to extract text from PDF. Ensure the PDF is readable.") ∧
      create_golden_circle_response file bn readResult docling baml =
        .error (.httpExc 400 "Failed to extract text from PDF. Ensure the PDF is readable.") := by
  subst hread
  have h1 : create_golden_circle_from_interview file bn (.ok bs) docling baml =
      .error (.httpExc 400 "Failed to extract text from PDF. Ensure the PDF is readable.") := by
    unfold create_golden_circle_from_interview golden_circle_body
    cases e with
    | httpExc s d => exact absurd rfl (hnothttp s d)
    | unicodeDecodeError =>
      simp [hname, hct, hdoc, extract_text_from_pdf_bytes, golden_circle_handlers]
    | otherExc m =>
      simp [hname, hct, hdoc, extract_text_from_pdf_bytes, golden_circle_handlers]
  refine ⟨h1, ?_⟩
  unfold create_golden_circle_response
  rw [h1]

/-- Witness for C4: a valid PDF request whose Docling conversion raises. -/
theorem C4_witness :
    create_golden_circle_from_interview ⟨some "a.pdf", some "application/pdf"⟩ none (.ok [])
        (fun _ => .error (.otherExc "corrupt pdf")) (fun _ => .error (.otherExc "down")) =
      .error (.httpExc 400 "Failed to extract text from PDF. Ensure the PDF is readable.") :=
  (C4_extraction_failure_client_error ⟨some "a.pdf", some "application/pdf"⟩ none []
    (PyExc.otherExc "corrupt pdf") (.ok []) (fun _ => .error (.otherExc "corrupt pdf"))
    (fun _ => .error (.otherExc "down")) (by decide) (by decide) rfl rfl
    (fun s d h => PyExc.noConfusion h)).1

/-- C5 (counterexample): the claim says every exception that is not a
validation, extraction or inference failure becomes a 500 server fault, but a
`UnicodeDecodeError` escaping during processing — which is none of those
three — is mapped to a 400 client error with the encoding detail, not to the
500 server fault. -/
theorem C5_counterexample :
    create_golden_circle_from_interview ⟨some "a.pdf", some "application/pdf"⟩ none
        (.error .unicodeDecodeError) (fun _ => .ok "text") (fun _ => .error (.otherExc "down")) =
      .error (.httpExc 400 "File encoding not supported. Please use UTF-8.") ∧
    (Except.error (PyExc.httpExc 400 "File encoding not supported. Please use UTF-8.") :
        Except PyExc GoldenCircleDict) ≠
      .error (.httpExc 500 "Internal server error processing file") := by
  decide

/-- C5 (amended): every exception during processing that is not a validation
error, not an extraction error, not an inference-client failure and not a
`UnicodeDecodeError` is converted to the 500 server fault whose detail is the
fixed generic string — the same for every exception message, so the original
message never reaches the caller; the response-level wrapper re-raises it
unchanged. -/
theorem C5_unexpected_exception_opaque_500
    (file : UploadFileM) (bn : Option String) (msg : String)
    (docling : ByteSeq → Except PyExc String) (baml : BamlClient)
    (hname : pyFalsyStr file.filename = false)
    (hct : file.content_type = some "application/pdf") :
    create_golden_circle_from_interview file bn (.error (.otherExc msg)) docling baml =
        .error (.httpExc 500 "Internal server error processing file") ∧
      create_golden_circle_response file bn (.error (.otherExc msg)) docling baml =
        .error (.httpExc 500 "Internal server error processing file") := by
  have h1 : create_golden_circle_from_interview file bn (.error (.otherExc msg)) docling baml =
      .error (.httpExc 500 "Internal server error processing file") := by
    unfold create_golden_circle_from_interview golden_circle_body
    simp [hname, hct, golden_circle_handlers]
  refine ⟨h1, ?_⟩
  unfold create_golden_circle_response
  rw [h1]

/-- Witness for C5's amended theorem: a valid PDF request whose byte read
raises a generic exception. -/
theorem C5_witness :
    create_golden_circle_from_interview ⟨some "b.pdf", some "application/pdf"⟩ none
        (.error (.otherExc "disk error")) (fun _ => .ok "text")
        (fun _ => .error (.otherExc "down")) =
      .error (.httpExc 500 "Internal server error processing file") :=
  (C5_unexpected_exception_opaque_500 ⟨some "b.pdf", some "application/pdf"⟩ none "disk error"
    (fun _ => .ok "text") (fun _ => .error (.otherExc "down")) (by decide) (by decide)).1

/-- C6: with a non-empty explicit brand-name override, the returned result's
`brand_name` equals the override exactly, both when the BAML call succeeds
(overriding the inferred name) and when it fails (taking precedence over the
filename-derived name in the fallback). -/
theorem C6_override_wins
    (file : UploadFileM) (s : String) (bs : ByteSeq) (t : String)
    (readResult : Except PyExc ByteSeq) (docling : ByteSeq → Except PyExc String)
    (baml : BamlClient)
    (hname : pyFalsyStr file.filename = false)
    (hct : file.content_type = some "application/pdf")
    (hread : readResult = .ok bs)
    (hdoc : docling bs = .ok t)
    (hs : s ≠ "") :
    resultBrandName (create_golden_circle_from_interview file (some s) readResult docling baml) =
      some s := by
  subst hread
  unfold create_golden_circle_from_interview golden_circle_body
  cases hb : baml t with
  | ok resp =>
    simp [hname, hct, hdoc, extract_text_from_pdf_bytes, hb, hs,
      golden_circle_handlers, resultBrandName]
  | error e =>
    simp [hname, hct, hdoc, extract_text_from_pdf_bytes, hb, hs,
      golden_circle_handlers, resultBrandName, process_interview_for_golden_circle]

/-- Witness for C6 on both paths: the same request once with a succeeding
BAML client and once with a failing one. -/
theorem C6_witness :
    resultBrandName (create_golden_circle_from_interview
        ⟨some "acme_interview.pdf", some "application/pdf"⟩ (some "Override Co") (.ok [9])
        (fun _ => .ok "md")
        (fun _ => .ok { brand_name := "Inferred", golden_circle :=
          { why := "w", how := "h", what := "t" } })) = some "Override Co" ∧
    resultBrandName (create_golden_circle_from_interview
        ⟨some "acme_interview.pdf", some "application/pdf"⟩ (some "Override Co") (.ok [9])
        (fun _ => .ok "md") (fun _ => .error (.otherExc "down"))) = some "Override Co" :=
  ⟨C6_override_wins ⟨some "acme_interview.pdf", some "application/pdf"⟩ "Override Co" [9] "md"
      (.ok [9]) (fun _ => .ok "md")
      (fun _ => .ok { brand_name := "Inferred", golden_circle :=
        { why := "w", how := "h", what := "t" } })
      (by decide) (by decide) rfl rfl (by decide),
   C6_override_wins ⟨some "acme_interview.pdf", some "application/pdf"⟩ "Override Co" [9] "md"
      (.ok [9]) (fun _ => .ok "md") (fun _ => .error (.otherExc "down"))
      (by decide) (by decide) rfl rfl (by decide)⟩

/-- C10: a `UnicodeDecodeError` escaping from processing a validated upload
is mapped to the 400 client error "File encoding not supported. Please use
UTF-8." instead of the generic 500 server fault. -/
theorem C10_unicode_decode_error_maps_to_400
    (file : UploadFileM) (bn : Option String)
    (docling : ByteSeq → Except PyExc String) (baml : BamlClient)
    (hname : pyFalsyStr file.filename = false)
    (hct : file.content_type = some "application/pdf") :
    create_golden_circle_from_interview file bn (.error .unicodeDecodeError) docling baml =
      .error (.httpExc 400 "File encoding not supported. Please use UTF-8.") := by
  unfold create_golden_circle_from_interview golden_circle_body
  simp [hname, hct, golden_circle_handlers]

/-- Witness for C10: a valid PDF request whose byte read raises
`UnicodeDecodeError`. -/
theorem C10_witness :
    create_golden_circle_from_interview ⟨some "c.pdf", some "application/pdf"⟩ none
        (.error .unicodeDecodeError) (fun _ => .ok "text")
        (fun _ => .error (.otherExc "down")) =
      .error (.httpExc 400 "File encoding not supported. Please use UTF-8.") :=
  C10_unicode_decode_error_maps_to_400 ⟨some "c.pdf", some "application/pdf"⟩ none
    (fun _ => .ok "text") (fun _ => .error (.otherExc "down")) (by decide) (by decide)

set_option maxRecDepth 20000 in
/-- C1 (counterexample): for the validated upload `"_interview.pdf"` with no
override, a failing BAML call makes the fallback derive the brand name from
the filename, and that derivation yields the empty string — the pipeline
returns a result whose `brand_name` is `""`, refuting the claim that the
returned `brand_name` is always non-empty. -/
theorem C1_counterexample :
    create_golden_circle_from_interview ⟨some "_interview.pdf", some "application/pdf"⟩ none
        (.ok []) (fun _ => .ok "interview text") (fun _ => .error (.otherExc "client down")) =
      .ok { brand_name := "",
            golden_circle :=
              { why := "We believe that businesses like  should create meaningful impact by solving real problems and empowering their customers to achieve their goals.",
                how := "Our approach focuses on innovative solutions and a clear process: we listen, iterate, and deliver with high quality standards and reliable service. This method builds genuine relationships with customers through transparency.",
                what := " provides professional services and solutions that help clients streamline their operations and grow their business effectively." } } ∧
    resultBrandName (create_golden_circle_from_interview
        ⟨some "_interview.pdf", some "application/pdf"⟩ none (.ok [])
        (fun _ => .ok "interview text") (fun _ => .error (.otherExc "client down"))) =
      some "" := by
  decide

/-- C1 (amended): for every upload that passes validation and extraction, if
the BAML call raises any exception the pipeline still returns a value (the
exception never propagates) whose three Golden Circle fields are all
non-empty; the returned `brand_name` is the override or the filename-derived
name and can be empty for degenerate filenames such as `"_interview.pdf"`. -/
theorem C1_fallback_keeps_pipeline_total
    (file : UploadFileM) (bn : Option String) (bs : ByteSeq) (t : String) (e : PyExc)
    (readResult : Except PyExc ByteSeq) (docling : ByteSeq → Except PyExc String)
    (baml : BamlClient)
    (hname : pyFalsyStr file.filename = false)
    (hct : file.content_type = some "application/pdf")
    (hread : readResult = .ok bs)
    (hdoc : docling bs = .ok t)
    (hbaml : baml t = .error e) :
    okNonemptyCircle (create_golden_circle_from_interview file bn readResult docling baml) := by
  subst hread
  unfold create_golden_circle_from_interview golden_circle_body
  simp [hname, hct, hdoc, extract_text_from_pdf_bytes, hbaml, golden_circle_handlers,
    okNonemptyCircle, process_interview_for_golden_circle]
  refine ⟨string_append_ne_empty_right _ _ ?_, string_append_ne_empty_right _ _ ?_⟩ <;> decide

/-- Witness for C1's amended theorem: a validated upload whose BAML call
raises. -/
theorem C1_witness :
    okNonemptyCircle (create_golden_circle_from_interview
      ⟨some "acme_interview.pdf", some "application/pdf"⟩ none (.ok [1, 2])
      (fun _ => .ok "some interview text") (fun _ => .error (.otherExc "quota"))) :=
  C1_fallback_keeps_pipeline_total ⟨some "acme_interview.pdf", some "application/pdf"⟩ none
    [1, 2] "some interview text" (PyExc.otherExc "quota") (.ok [1, 2])
    (fun _ => .ok "some interview text") (fun _ => .error (.otherExc "quota"))
    (by decide) (by decide) rfl rfl rfl

/-- C8: with identical request data, read outcome and Docling behaviour, the
pipeline returns identical results when the BAML client is a deterministic
function both times (pointwise-equal behaviours) or is unavailable both times
(every call fails, possibly with different exceptions — the fallback path). -/
theorem C8_idempotent_pipeline
    (file : UploadFileM) (bn : Option String) (readResult : Except PyExc ByteSeq)
    (docling : ByteSeq → Except PyExc String) (baml1 baml2 : BamlClient)
    (h : (∀ t, baml1 t = baml2 t) ∨
      ((∀ t, ∃ e1, baml1 t = .error e1) ∧ (∀ t, ∃ e2, baml2 t = .error e2))) :
    create_golden_circle_from_interview file bn readResult docling baml1 =
      create_golden_circle_from_interview file bn readResult docling baml2 := by
  unfold create_golden_circle_from_interview
  congr 1
  unfold golden_circle_body
  by_cases hf : pyFalsyStr file.filename = true
  · simp [hf]
  · simp only [Bool.not_eq_true] at hf
    by_cases hct : file.content_type = some "application/pdf"
    · simp only [hf, hct, Bool.false_eq_true, if_false, ne_eq, not_true_eq_false, if_neg,
        not_false_eq_true]
      cases readResult with
      | error e => rfl
      | ok bs =>
        cases hx : extract_text_from_pdf_bytes (docling bs) with
        | error e => simp [hx]
        | ok t =>
          simp only [hx]
          rcases h with hdet | ⟨h1, h2⟩
          · rw [hdet t]
          · obtain ⟨e1, he1⟩ := h1 t
            obtain ⟨e2, he2⟩ := h2 t
            rw [he1, he2]
    · simp [hf, hct]

/-- Witness for C8: the same request against two different unavailable BAML
clients. -/
theorem C8_witness :
    create_golden_circle_from_interview ⟨some "b_interview.pdf", some "application/pdf"⟩ none
        (.ok [4]) (fun _ => .ok "markdown") (fun _ => .error (.otherExc "timeout")) =
      create_golden_circle_from_interview ⟨some "b_interview.pdf", some "application/pdf"⟩ none
        (.ok [4]) (fun _ => .ok "markdown") (fun _ => .error .unicodeDecodeError) :=
  C8_idempotent_pipeline ⟨some "b_interview.pdf", some "application/pdf"⟩ none (.ok [4])
    (fun _ => .ok "markdown") (fun _ => .error (.otherExc "timeout"))
    (fun _ => .error .unicodeDecodeError)
    (Or.inr ⟨fun _ => ⟨.otherExc "timeout", rfl⟩, fun _ => ⟨.unicodeDecodeError, rfl⟩⟩)
